import Mathlib

/-!
Verification of the Order & Payment Reconciliation Core of the Reusable-shop
repository, together with the client checkout flow that is present in the
frontend sources.

The frontend (cart checkout handler, Stripe submission form, orders page) is
embedded directly from the TypeScript sources.  The backend components the
specification describes (Order Service, Reconciliation Engine, Inventory
Ledger, Payment Gateway Client) have no implementation in the repository
sources; they are modelled from the specification text, and every such
definition is marked `Modelled from the spec:` in its doc comment.
-/

namespace Shop

/-- Order states, from the state machine in spec section 4.4. -/
inductive OrderState
  | created
  | awaiting_payment
  | paid
  | processing
  | fulfilled
  | failed
  | cancelled
  | refunded
deriving DecidableEq, Repr

/-- Modelled from the spec: the legal transition edges of the order state
machine in section 4.4; every other edge is illegal. -/
def legalEdge : OrderState → OrderState → Bool
  | .created, .awaiting_payment => true
  | .awaiting_payment, .paid => true
  | .awaiting_payment, .failed => true
  | .awaiting_payment, .cancelled => true
  | .paid, .processing => true
  | .processing, .fulfilled => true
  | .paid, .refunded => true
  | .fulfilled, .refunded => true
  | _, _ => false

/-- A line item of an order: product reference, quantity, and the unit-price
snapshot captured at checkout time (spec section 3, OrderLineItem). -/
structure LineItem where
  productId : Nat
  quantity : Nat
  unitPriceSnapshot : Nat
deriving DecidableEq, Repr

/-- Sum over the line items of unit-price snapshot times quantity. -/
def lineItemsTotal (items : List LineItem) : Nat :=
  (items.map (fun it => it.unitPriceSnapshot * it.quantity)).sum

/-- An order record: identity, status, monotonic version counter,
payment-intent reference, line items and computed total (spec section 3). -/
structure Order where
  id : Nat
  state : OrderState
  version : Nat
  intentId : Option Nat
  items : List LineItem
  total : Nat
deriving DecidableEq, Repr

/-- The error taxonomy of spec section 7, restricted to the errors the
claims mention. -/
inductive ServiceError
  | ConflictError
  | NotFoundError
  | InventoryUnavailableError
  | PaymentRequestError
deriving DecidableEq, Repr

/-- Modelled from the spec: the Order Service operation
`TransitionState(orderId, targetState, expectedVersion)` of section 4.1.
It enforces the transition graph and the optimistic-concurrency check and
rejects with `ConflictError` on a version mismatch or an illegal edge. -/
def TransitionState (o : Order) (target : OrderState) (expectedVersion : Nat) :
    Except ServiceError Order :=
  if o.version ≠ expectedVersion then .error .ConflictError
  else if legalEdge o.state target then
    .ok { o with state := target, version := o.version + 1 }
  else .error .ConflictError

/-- The order record as it stands after a transition request: the updated
record on success, the untouched record when the request was rejected. -/
def transitionOrKeep (o : Order) (target : OrderState) (expectedVersion : Nat) : Order :=
  match TransitionState o target expectedVersion with
  | .ok o' => o'
  | .error _ => o

/-- Modelled from the spec: the Inventory Ledger of section 4.5, tracked for
one product: total stock, permanently committed stock, and the active
reservations as (owning order id, reserved quantity) pairs. -/
structure Ledger where
  total : Nat
  committed : Nat
  reservations : List (Nat × Nat)
deriving DecidableEq, Repr

/-- Sum of the quantities of the active reservations. -/
def reservedSum (l : Ledger) : Nat :=
  (l.reservations.map Prod.snd).sum

/-- Available stock of the product: total minus committed minus reserved. -/
def available (l : Ledger) : Nat :=
  l.total - (l.committed + reservedSum l)

/-- Modelled from the spec: `Reserve(orderId, items)` of section 4.5 as an
atomic conditional decrement of the available counter; it fails with
`InventoryUnavailableError` when the requested quantity is not available. -/
def Reserve (l : Ledger) (orderId qty : Nat) : Except ServiceError Ledger :=
  if l.committed + reservedSum l + qty ≤ l.total then
    .ok { l with reservations := (orderId, qty) :: l.reservations }
  else .error .InventoryUnavailableError

/-- Modelled from the spec: `Commit(orderId)` of section 4.5 converts the
order's reservation into a permanent decrement; committing an order with no
active reservation is a no-op (idempotent). -/
def Commit (l : Ledger) (orderId : Nat) : Ledger :=
  match l.reservations.find? (fun p => p.1 == orderId) with
  | some p =>
    { l with
      committed := l.committed + p.2,
      reservations := l.reservations.filter (fun q => !(q.1 == orderId)) }
  | none => l

/-- Modelled from the spec: `Release(orderId)` of section 4.5 returns the
order's reserved quantity to availability; releasing an order with no
active reservation is a no-op (idempotent). -/
def Release (l : Ledger) (orderId : Nat) : Ledger :=
  { l with reservations := l.reservations.filter (fun q => !(q.1 == orderId)) }

/-- The never-oversell invariant of spec section 3: active reservations plus
committed stock never exceed total stock. -/
def ledgerInvariant (l : Ledger) : Prop :=
  l.committed + reservedSum l ≤ l.total

/-- Ledger states reachable from a fresh product ledger by any sequence of
Reserve, Commit and Release operations. -/
inductive LedgerReachable (stock : Nat) : Ledger → Prop
  | init : LedgerReachable stock ⟨stock, 0, []⟩
  | reserve (l l' : Ledger) (oid q : Nat) :
      LedgerReachable stock l → Reserve l oid q = .ok l' → LedgerReachable stock l'
  | commit (l : Ledger) (oid : Nat) :
      LedgerReachable stock l → LedgerReachable stock (Commit l oid)
  | release (l : Ledger) (oid : Nat) :
      LedgerReachable stock l → LedgerReachable stock (Release l oid)

/-- Payment event types delivered by the external provider, from the
examples in spec section 4.4. -/
inductive EventType
  | succeeded
  | payment_failed
  | refunded
deriving DecidableEq, Repr

/-- The order-state transition implied by an event type
(spec section 4.4 step 3). -/
def eventTarget : EventType → OrderState
  | .succeeded => .paid
  | .payment_failed => .failed
  | .refunded => .refunded

/-- A verified payment event as emitted by the Webhook Receiver:
unique external id, type, and payment-intent reference. -/
structure VerifiedEvent where
  id : Nat
  type : EventType
  intentId : Nat
deriving DecidableEq, Repr

/-- The shared state the Reconciliation Engine acts on: the Idempotency
Store of processed event ids, the Order Store, and the Inventory Ledger. -/
structure EngineState where
  processed : List Nat
  orders : List Order
  ledger : Ledger
deriving DecidableEq, Repr

/-- The result of `Apply`, from spec section 4.4. -/
inductive ApplyResult
  | noopAlreadyProcessed
  | noopSuperseded
  | applied
  | notFound
  | conflict
deriving DecidableEq, Repr

/-- Resolve an order by its payment-intent reference. -/
def findOrder (orders : List Order) (intentId : Nat) : Option Order :=
  orders.find? (fun o => o.intentId == some intentId)

/-- Replace the order with the given id by its updated record. -/
def updateOrder (orders : List Order) (o' : Order) : List Order :=
  orders.map (fun o => if o.id == o'.id then o' else o)

/-- The inventory effect of a legally applied event: commit the reservation
permanently for `succeeded`, release it for `payment_failed`
(spec section 4.4 step 3). -/
def ledgerEffect (t : EventType) (l : Ledger) (orderId : Nat) : Ledger :=
  match t with
  | .succeeded => Commit l orderId
  | .payment_failed => Release l orderId
  | .refunded => l

/-- A stale-but-harmless edge per spec section 4.4: a delayed `succeeded`
event arriving after the order already reached the later terminal state
`refunded`. -/
def staleButHarmless (t : EventType) (st : OrderState) : Bool :=
  t == .succeeded && st == .refunded

/-- Modelled from the spec: the Reconciliation Engine operation
`Apply(event)` of section 4.4, executed as one atomic unit.
Step 1 checks the Idempotency Store; step 2 resolves the order by intent id;
step 3 validates the implied transition against the current state, applying
it (with the event recording and the inventory effect) on a legal edge,
recording-but-not-regressing on a stale-but-harmless edge, and rejecting
with a conflict (without recording) on any other illegal edge. -/
def Apply (s : EngineState) (e : VerifiedEvent) : ApplyResult × EngineState :=
  if s.processed.contains e.id then (.noopAlreadyProcessed, s)
  else
    match findOrder s.orders e.intentId with
    | none => (.notFound, s)
    | some o =>
      if legalEdge o.state (eventTarget e.type) then
        (.applied,
          { processed := e.id :: s.processed,
            orders := updateOrder s.orders
              { o with state := eventTarget e.type, version := o.version + 1 },
            ledger := ledgerEffect e.type s.ledger o.id })
      else if staleButHarmless e.type o.state then
        (.noopSuperseded, { s with processed := e.id :: s.processed })
      else (.conflict, s)

/-- N-fold application of the same verified event. -/
def applyN (e : VerifiedEvent) : Nat → EngineState → EngineState
  | 0, s => s
  | n + 1, s => (Apply (applyN e n s) e).2

/-- Modelled from the spec: `CreateOrder` (section 4.1) persists the order in
state `created` with the total computed from the line items' price snapshots;
the spec's order-total invariant (section 3) holds by construction. -/
def mkOrder (oid : Nat) (items : List LineItem) (intentId : Option Nat) : Order :=
  { id := oid, state := .created, version := 0, intentId := intentId,
    items := items, total := lineItemsTotal items }

/-- Orders reachable in the modelled system: created by `CreateOrder` and
mutated only through `TransitionState` (which never touches line items or
the total). -/
inductive OrderReachable : Order → Prop
  | create (oid : Nat) (items : List LineItem) (intentId : Option Nat) :
      OrderReachable (mkOrder oid items intentId)
  | transition (o o' : Order) (t : OrderState) (ev : Nat) :
      OrderReachable o → TransitionState o t ev = .ok o' → OrderReachable o'

/-- Provider call outcomes observed by the Payment Gateway Client: a success
carrying the intent id and client secret, a network failure, a 5xx server
failure, or a 4xx validation failure (spec section 4.2). -/
inductive ProviderResponse
  | success (intentId clientSecret : String)
  | networkError
  | server5xx
  | badRequest4xx
deriving DecidableEq, Repr

/-- Failure classification of spec section 4.2: network/5xx are retryable,
4xx validation failures are terminal. -/
def retryableResponse : ProviderResponse → Bool
  | .networkError => true
  | .server5xx => true
  | _ => false

/-- The result surfaced by the Payment Gateway Client. -/
inductive GatewayResult
  | ok (intentId clientSecret : String)
  | requestError
  | providerUnavailable
deriving DecidableEq, Repr

/-- The retry budget of spec section 4.2: retried up to 3 times. -/
def maxRetries : Nat := 3

/-- The exponential-backoff base of spec section 4.2, in milliseconds. -/
def backoffBaseMs : Nat := 500

/-- Delay before retry number `attempt` (counted from 0): exponential backoff
on the base, plus jitter. -/
def backoffDelayMs (attempt jitter : Nat) : Nat :=
  backoffBaseMs * 2 ^ attempt + jitter

/-- Modelled from the spec: `CreatePaymentIntent` of section 4.2 as a bounded
retry loop over the sequence of provider responses.  A success returns the
intent; a 4xx validation failure is surfaced immediately without retry; a
retryable failure consumes one retry, and an exhausted budget surfaces
`PaymentProviderUnavailable`.  The second component counts provider calls. -/
def createPaymentIntent : List ProviderResponse → Nat → GatewayResult × Nat
  | [], _ => (.providerUnavailable, 0)
  | .success iid cs :: _, _ => (.ok iid cs, 1)
  | .badRequest4xx :: _, _ => (.requestError, 1)
  | _ :: _, 0 => (.providerUnavailable, 1)
  | _ :: rest, k + 1 =>
    ((createPaymentIntent rest k).1, (createPaymentIntent rest k).2 + 1)

/-- Modelled from the spec: when all retries exhaust, the calling Order
Service transitions the order to `failed` and releases its reservation
(spec section 4.2). -/
def handleIntentExhaustion (o : Order) (l : Ledger) : Order × Ledger :=
  (transitionOrKeep o .failed o.version, Release l o.id)

/-- An HTTP request as assembled by the client: path, JSON body fields as
name/value pairs (numbers rendered as strings), and headers. -/
structure HttpRequest where
  path : String
  bodyFields : List (String × String)
  headers : List (String × String)
deriving DecidableEq, Repr

/-- The `POST /checkout` request built in `handleCheckout`
(cart/page.tsx lines 42-52): the body holds only `shipping_address`, and the
only header set is `Authorization`. -/
def checkoutRequest (shippingAddress token : String) : HttpRequest :=
  { path := "/checkout",
    bodyFields := [("shipping_address", shippingAddress)],
    headers := [("Authorization", token)] }

/-- The `POST /payments/create-intent` request built in `handleCheckout`
(cart/page.tsx lines 58-71): body fields `order_id`, `amount`,
`customer_email`, `customer_name`; the only header set is `Authorization`. -/
def paymentIntentRequest (orderId amount : Nat) (email name token : String) :
    HttpRequest :=
  { path := "/payments/create-intent",
    bodyFields :=
      [("order_id", toString orderId), ("amount", toString amount),
       ("customer_email", email), ("customer_name", name)],
    headers := [("Authorization", token)] }

/-- The component state touched by `handleCheckout` (cart/page.tsx). -/
structure CheckoutState where
  orderId : Option Nat
  clientSecret : Option String
  showPaymentForm : Bool
  error : Option String
  isCheckingOut : Bool
  isCreatingOrder : Bool
deriving DecidableEq, Repr

/-- The `data` of the create-intent response as read by the client: only
`client_secret` is inspected (cart/page.tsx line 73). -/
structure IntentResponseData where
  client_secret : Option String
deriving DecidableEq, Repr

/-- The network environment of one `handleCheckout` run: the checkout call
either yields the created order (its id is the only field read) or throws,
and the create-intent call either yields response data or throws. -/
structure CheckoutEnv where
  checkoutResp : Except String Nat
  paymentResp : Except String IntentResponseData
deriving Repr

/-- JavaScript truthiness of the optional `client_secret` string: absent and
empty strings are falsy. -/
def jsTruthy : Option String → Bool
  | none => false
  | some s => !(s == "")

/-- JavaScript `String.prototype.trim`: strips whitespace from both ends of
the string. -/
def jsTrim (s : String) : String :=
  String.mk (((s.data.dropWhile Char.isWhitespace).reverse.dropWhile
    Char.isWhitespace).reverse)

/-- The `handleCheckout` function of cart/page.tsx lines 27-87, embedded as
a function from the component state, the form inputs and the network
environment to the list of HTTP requests issued and the resulting state.
The `finally` clause clears both in-progress flags on every path. -/
def handleCheckout (st : CheckoutState) (name email addr token : String)
    (total : Nat) (env : CheckoutEnv) : List HttpRequest × CheckoutState :=
  if jsTrim name == "" || jsTrim email == "" || jsTrim addr == "" then
    ([], { st with error := some "Please fill in all fields",
                   isCheckingOut := false, isCreatingOrder := false })
  else
    match env.checkoutResp with
    | .error msg =>
      ([checkoutRequest addr token],
       { st with error := some msg,
                 isCheckingOut := false, isCreatingOrder := false })
    | .ok oid =>
      match env.paymentResp with
      | .error msg =>
        ([checkoutRequest addr token, paymentIntentRequest oid total email name token],
         { st with orderId := some oid, error := some msg,
                   isCheckingOut := false, isCreatingOrder := false })
      | .ok resp =>
        if jsTruthy resp.client_secret then
          ([checkoutRequest addr token, paymentIntentRequest oid total email name token],
           { st with orderId := some oid, clientSecret := resp.client_secret,
                     showPaymentForm := true, error := none,
                     isCheckingOut := false, isCreatingOrder := false })
        else
          ([checkoutRequest addr token, paymentIntentRequest oid total email name token],
           { st with orderId := some oid,
                     error := some "Failed to create payment intent",
                     isCheckingOut := false, isCreatingOrder := false })

/-- A cart entry of the frontend store: product id, unit price, quantity. -/
structure CartItem where
  productId : Nat
  price : Nat
  quantity : Nat
deriving DecidableEq, Repr

/-- The two top-level renderings of the cart page. -/
inductive CartPageView
  | emptyCartView
  | checkoutView
deriving DecidableEq, Repr

/-- The early return of cart/page.tsx lines 105-127: with an empty cart the
page renders the empty-cart screen without any checkout controls; otherwise
it renders the cart with the checkout flow. -/
def cartPageRender (items : List CartItem) : CartPageView :=
  if items.length == 0 then .emptyCartView else .checkoutView

/-- Modelled from the spec: the idempotency-key lookup of `CreateOrder`
(section 4.1), absent from the repository sources.  The store maps each
idempotency key to the creation time and the created order; a key found
within the dedup window returns the existing order unchanged. -/
def dedupWindowSecs : Nat := 600

/-- An idempotency-store lookup: the first entry with the requested key whose
age at `now` is within the dedup window. -/
def dedupLookup (store : List (String × Nat × Order)) (key : String) (now : Nat) :
    Option Order :=
  match store.find? (fun entry => entry.1 == key && now ≤ entry.2.1 + dedupWindowSecs) with
  | some entry => some entry.2.2
  | none => none

/-- Modelled from the spec: `CreateOrder`'s duplicate-key handling
(section 4.1): if an order already exists for the key within the dedup
window, return the existing order unchanged instead of creating a
duplicate; otherwise record and return the fresh order. -/
def createOrderWithDedup (store : List (String × Nat × Order)) (key : String)
    (now : Nat) (fresh : Order) : Order × List (String × Nat × Order) :=
  match dedupLookup store key now with
  | some o => (o, store)
  | none => (fresh, (key, now, fresh) :: store)

/-- Modelled from the spec: the 200 response of `POST /payments/create-intent`
(section 6) carries both `client_secret` and `intent_id`. -/
structure CreateIntentSuccess where
  client_secret : String
  intent_id : String
deriving DecidableEq, Repr

/-- The success response published for a gateway result: present exactly for
successful intent creation, and then carrying both fields of the result. -/
def intentResponseOf : GatewayResult → Option CreateIntentSuccess
  | .ok iid cs => some { client_secret := cs, intent_id := iid }
  | _ => none

/-- The outcome of `stripe.confirmPayment` as observed by the submit handler
of StripeCheckoutForm.tsx: an error object (with an optional message), a
payment intent with a status and an id, or a thrown exception. -/
inductive ConfirmOutcome
  | confirmError (msg : Option String)
  | intent (status id : String)
  | thrown (msg : Option String)
deriving DecidableEq, Repr

/-- JavaScript `a || b` on an optional string: an absent or empty message
falls back to the default. -/
def jsOrElse (s : Option String) (dflt : String) : String :=
  match s with
  | some v => if v == "" then dflt else v
  | none => dflt

/-- The observable effects of one run of the submit handler. -/
structure SubmitResult where
  confirmAttempted : Bool
  onSuccessArg : Option String
  onErrorArg : Option String
  errorMessage : Option String
deriving DecidableEq, Repr

/-- The `handleSubmit` function of StripeCheckoutForm.tsx lines 74-116,
embedded as a function of whether the Stripe and Elements objects are loaded
and of the confirmation outcome. -/
def handleSubmit (stripeReady elementsReady : Bool) (oc : ConfirmOutcome) :
    SubmitResult :=
  if !stripeReady || !elementsReady then
    { confirmAttempted := false, onSuccessArg := none, onErrorArg := none,
      errorMessage := some "Payment system not ready. Please refresh the page." }
  else
    match oc with
    | .confirmError msg =>
      { confirmAttempted := true, onSuccessArg := none,
        onErrorArg := some (jsOrElse msg "Payment failed"),
        errorMessage := some (jsOrElse msg "Payment failed. Please try again.") }
    | .intent status id =>
      if status == "succeeded" then
        { confirmAttempted := true, onSuccessArg := some id,
          onErrorArg := none, errorMessage := none }
      else
        { confirmAttempted := true, onSuccessArg := none,
          onErrorArg := some ("Payment status: " ++ status),
          errorMessage := some ("Payment status: " ++ status) }
    | .thrown msg =>
      { confirmAttempted := true, onSuccessArg := none,
        onErrorArg := some (jsOrElse msg "An unexpected error occurred"),
        errorMessage := some (jsOrElse msg "An unexpected error occurred") }

theorem filter_map_snd_sum_le (rs : List (Nat × Nat)) (f : Nat × Nat → Bool) :
    ((rs.filter f).map Prod.snd).sum ≤ (rs.map Prod.snd).sum := by
  induction rs with
  | nil => simp
  | cons r t ih =>
    by_cases h : f r = true
    · simp [List.filter_cons, h]
      omega
    · simp [List.filter_cons, h]
      omega

theorem find_some_filter_sum_le (rs : List (Nat × Nat)) (oid : Nat) (p : Nat × Nat)
    (h : rs.find? (fun q => q.1 == oid) = some p) :
    p.2 + ((rs.filter (fun q => !(q.1 == oid))).map Prod.snd).sum ≤
      (rs.map Prod.snd).sum := by
  induction rs with
  | nil => simp [List.find?] at h
  | cons r t ih =>
    by_cases hr : (r.1 == oid) = true
    · simp only [List.find?_cons, hr] at h
      injection h with h
      subst h
      have := filter_map_snd_sum_le t (fun q => !(q.1 == oid))
      simp [List.filter_cons, hr]
      omega
    · simp only [List.find?_cons, hr] at h
      have := ih h
      simp [List.filter_cons, hr]
      omega

theorem reserve_ok_cases {l l' : Ledger} {oid q : Nat}
    (h : Reserve l oid q = .ok l') :
    l.committed + reservedSum l + q ≤ l.total ∧
      l' = { l with reservations := (oid, q) :: l.reservations } := by
  unfold Reserve at h
  split at h
  · exact ⟨by assumption, by injection h with h'; exact h'.symm⟩
  · exact absurd h (by simp)

theorem ledger_reachable_invariant {stock : Nat} {l : Ledger}
    (h : LedgerReachable stock l) : ledgerInvariant l := by
  induction h with
  | init => simp [ledgerInvariant, reservedSum]
  | reserve l l' oid q _ hres ih =>
    obtain ⟨hle, rfl⟩ := reserve_ok_cases hres
    simp only [ledgerInvariant, reservedSum, List.map_cons, List.sum_cons] at *
    omega
  | commit l oid _ ih =>
    unfold Commit
    cases hfind : l.reservations.find? (fun p => p.1 == oid) with
    | none => simpa using ih
    | some p =>
      have := find_some_filter_sum_le l.reservations oid p hfind
      simp only [ledgerInvariant, reservedSum] at *
      omega
  | release l oid _ ih =>
    have := filter_map_snd_sum_le l.reservations (fun q => !(q.1 == oid))
    simp only [ledgerInvariant, reservedSum, Release] at *
    omega

theorem apply_already_processed {s : EngineState} {e : VerifiedEvent}
    (h : s.processed.contains e.id = true) :
    Apply s e = (.noopAlreadyProcessed, s) := by
  unfold Apply
  split
  · rfl
  · simp_all

theorem apply_applied_records {s s1 : EngineState} {e : VerifiedEvent}
    (h : Apply s e = (.applied, s1)) : s1.processed.contains e.id = true := by
  unfold Apply at h
  split at h
  · simp at h
  · split at h
    · simp at h
    · split at h
      · injection h with h1 h2
        subst h2
        simp
      · split at h <;> simp at h

theorem applyN_fixed {s1 : EngineState} {e : VerifiedEvent}
    (h : Apply s1 e = (.noopAlreadyProcessed, s1)) :
    ∀ n, applyN e n s1 = s1 := by
  intro n
  induction n with
  | zero => rfl
  | succ n ih => simp [applyN, ih, h]

theorem transition_ok_preserves_items_total {o o' : Order} {t : OrderState} {ev : Nat}
    (h : TransitionState o t ev = .ok o') : o'.items = o.items ∧ o'.total = o.total := by
  unfold TransitionState at h
  split at h
  · simp at h
  · split at h
    · injection h with h
      subst h
      exact ⟨rfl, rfl⟩
    · simp at h

theorem release_clears_reservation (l : Ledger) (oid : Nat) :
    (Release l oid).reservations.find? (fun p => p.1 == oid) = none := by
  rw [List.find?_eq_none]
  intro x hx
  simp only [Release, List.mem_filter] at hx
  simpa using hx.2

theorem createPaymentIntent_exhausts (k : Nat) :
    ∀ rs : List ProviderResponse, (∀ r ∈ rs, retryableResponse r = true) →
      k + 1 ≤ rs.length →
      createPaymentIntent rs k = (.providerUnavailable, k + 1) := by
  induction k with
  | zero =>
    intro rs hall hlen
    match rs with
    | [] => simp at hlen
    | r :: rest =>
      have hr := hall r (by simp)
      cases r with
      | success iid cs => simp [retryableResponse] at hr
      | badRequest4xx => simp [retryableResponse] at hr
      | networkError => rfl
      | server5xx => rfl
  | succ k ih =>
    intro rs hall hlen
    match rs with
    | [] => simp at hlen
    | r :: rest =>
      have hr := hall r (by simp)
      have hrest : createPaymentIntent rest k = (.providerUnavailable, k + 1) := by
        refine ih rest (fun x hx => hall x (by simp [hx])) ?_
        simp at hlen
        omega
      cases r with
      | success iid cs => simp [retryableResponse] at hr
      | badRequest4xx => simp [retryableResponse] at hr
      | networkError => simp [createPaymentIntent, hrest]
      | server5xx => simp [createPaymentIntent, hrest]

/-- C1: When a verified payment event is applied successfully once, applying
the same event id any further number of times changes nothing: for every
N ≥ 1 the engine state after N applications equals the state after the
first (so there is exactly one inventory commit and one order-state change),
and every call after the first returns the already-processed no-op with no
side effects. -/
theorem apply_idempotent_in_event_id (s s1 : EngineState) (e : VerifiedEvent)
    (h : Apply s e = (.applied, s1)) :
    (∀ n : Nat, applyN e (n + 1) s = s1) ∧
      Apply s1 e = (.noopAlreadyProcessed, s1) := by
  have hnoop := apply_already_processed (apply_applied_records h)
  refine ⟨?_, hnoop⟩
  intro n
  induction n with
  | zero => simp [applyN, h]
  | succ n ih =>
    show (Apply (applyN e (n + 1) s) e).2 = s1
    rw [ih, hnoop]

theorem apply_idempotent_in_event_id_witness :
    (∀ n : Nat,
      applyN ⟨7, .succeeded, 42⟩ (n + 1)
        ⟨[], [⟨1, .awaiting_payment, 1, some 42, [], 0⟩], ⟨5, 0, [(1, 2)]⟩⟩ =
        ⟨[7], [⟨1, .paid, 2, some 42, [], 0⟩], ⟨5, 2, []⟩⟩) ∧
    Apply ⟨[7], [⟨1, .paid, 2, some 42, [], 0⟩], ⟨5, 2, []⟩⟩ ⟨7, .succeeded, 42⟩ =
      (.noopAlreadyProcessed, ⟨[7], [⟨1, .paid, 2, some 42, [], 0⟩], ⟨5, 2, []⟩⟩) :=
  apply_idempotent_in_event_id _ _ _ (by decide)

/-- C2: Every ledger state reachable by any sequence of Reserve, Commit and
Release operations satisfies the never-oversell invariant (reservations plus
committed stock never exceed total stock), and when available stock is 1,
of two serialized reservation attempts for one unit exactly the first
succeeds while the second receives `InventoryUnavailableError`, the
invariant still holding afterwards. -/
theorem inventory_never_oversells (stock : Nat) (l : Ledger)
    (h : LedgerReachable stock l) :
    ledgerInvariant l ∧
      (available l = 1 → ∀ oid1 oid2 : Nat,
        ∃ l1, Reserve l oid1 1 = .ok l1 ∧
          Reserve l1 oid2 1 = .error .InventoryUnavailableError ∧
          ledgerInvariant l1) := by
  have hinv := ledger_reachable_invariant h
  refine ⟨hinv, ?_⟩
  intro hav oid1 oid2
  have hinv' : l.committed + reservedSum l ≤ l.total := hinv
  have htot : l.total = l.committed + reservedSum l + 1 := by
    simp only [available] at hav
    omega
  refine ⟨{ l with reservations := (oid1, 1) :: l.reservations }, ?_, ?_, ?_⟩
  · unfold Reserve
    rw [if_pos (by omega)]
  · unfold Reserve
    rw [if_neg ?_]
    simp only [reservedSum, List.map_cons, List.sum_cons] at htot ⊢
    omega
  · simp only [ledgerInvariant, reservedSum, List.map_cons, List.sum_cons] at htot ⊢
    omega

theorem inventory_never_oversells_witness :
    ledgerInvariant ⟨1, 0, []⟩ ∧
      (∃ l1, Reserve ⟨1, 0, []⟩ 10 1 = .ok l1 ∧
        Reserve l1 20 1 = .error .InventoryUnavailableError ∧
        ledgerInvariant l1) :=
  ⟨(inventory_never_oversells 1 _ .init).1,
   (inventory_never_oversells 1 _ .init).2 (by decide) 10 20⟩

/-- C3: Every requested transition whose edge is not in the legal edge set is
rejected by `TransitionState` with `ConflictError`, and the order record —
its state and version counter included — is left unchanged. -/
theorem illegal_transition_rejected (o : Order) (target : OrderState) (ev : Nat)
    (h : legalEdge o.state target = false) :
    TransitionState o target ev = .error .ConflictError ∧
      transitionOrKeep o target ev = o := by
  have h1 : TransitionState o target ev = .error .ConflictError := by
    unfold TransitionState
    split
    · rfl
    · simp [h]
  refine ⟨h1, ?_⟩
  unfold transitionOrKeep
  rw [h1]

theorem illegal_transition_rejected_witness :
    TransitionState ⟨3, .paid, 5, none, [], 0⟩ .awaiting_payment 5 =
        .error .ConflictError ∧
      transitionOrKeep ⟨3, .paid, 5, none, [], 0⟩ .awaiting_payment 5 =
        ⟨3, .paid, 5, none, [], 0⟩ :=
  illegal_transition_rejected _ _ _ (by decide)

/-- C4: A delayed `succeeded` event arriving for an order already in the
terminal state `refunded` is recorded as processed (so future replays
no-op) and returns the superseded no-op, while the order store and the
ledger are untouched — the order never moves back to `paid`. -/
theorem delayed_succeeded_after_refund (s : EngineState) (e : VerifiedEvent)
    (o : Order)
    (hfresh : s.processed.contains e.id = false)
    (hfind : findOrder s.orders e.intentId = some o)
    (hstate : o.state = .refunded)
    (htype : e.type = .succeeded) :
    Apply s e = (.noopSuperseded, { s with processed := e.id :: s.processed }) ∧
      (Apply s e).2.orders = s.orders ∧
      (Apply s e).2.ledger = s.ledger ∧
      Apply (Apply s e).2 e =
        (.noopAlreadyProcessed, { s with processed := e.id :: s.processed }) := by
  have key : Apply s e =
      (.noopSuperseded, { s with processed := e.id :: s.processed }) := by
    unfold Apply
    rw [hfresh]
    simp only [Bool.false_eq_true, if_false, hfind]
    rw [hstate, htype]
    simp [legalEdge, eventTarget, staleButHarmless]
  refine ⟨key, ?_, ?_, ?_⟩
  · rw [key]
  · rw [key]
  · rw [key]
    exact apply_already_processed (by simp)

theorem delayed_succeeded_after_refund_witness :
    Apply ⟨[], [⟨1, .refunded, 4, some 42, [], 0⟩], ⟨5, 0, []⟩⟩ ⟨9, .succeeded, 42⟩ =
        (.noopSuperseded, ⟨[9], [⟨1, .refunded, 4, some 42, [], 0⟩], ⟨5, 0, []⟩⟩) ∧
      (Apply ⟨[], [⟨1, .refunded, 4, some 42, [], 0⟩], ⟨5, 0, []⟩⟩
          ⟨9, .succeeded, 42⟩).2.orders = [⟨1, .refunded, 4, some 42, [], 0⟩] ∧
      (Apply ⟨[], [⟨1, .refunded, 4, some 42, [], 0⟩], ⟨5, 0, []⟩⟩
          ⟨9, .succeeded, 42⟩).2.ledger = ⟨5, 0, []⟩ ∧
      Apply (Apply ⟨[], [⟨1, .refunded, 4, some 42, [], 0⟩], ⟨5, 0, []⟩⟩
            ⟨9, .succeeded, 42⟩).2 ⟨9, .succeeded, 42⟩ =
        (.noopAlreadyProcessed, ⟨[9], [⟨1, .refunded, 4, some 42, [], 0⟩], ⟨5, 0, []⟩⟩) :=
  delayed_succeeded_after_refund ⟨[], [⟨1, .refunded, 4, some 42, [], 0⟩], ⟨5, 0, []⟩⟩
    ⟨9, .succeeded, 42⟩ ⟨1, .refunded, 4, some 42, [], 0⟩
    (by decide) (by decide) rfl rfl

/-- C5: Every reachable order — created by `CreateOrder` and mutated only
through `TransitionState` — has its total equal to the sum over its line
items of the unit-price snapshot times the quantity, at every observed
state. -/
theorem order_total_invariant (o : Order) (h : OrderReachable o) :
    o.total = lineItemsTotal o.items := by
  induction h with
  | create oid items intentId => rfl
  | transition o o' t ev _ htr ih =>
    obtain ⟨hi, ht⟩ := transition_ok_preserves_items_total htr
    rw [ht, hi]
    exact ih

theorem order_total_invariant_witness :
    (mkOrder 5 [⟨1, 1, 1000⟩, ⟨2, 1, 500⟩] none).total = 1500 := by
  have h := order_total_invariant _ (OrderReachable.create 5 [⟨1, 1, 1000⟩, ⟨2, 1, 500⟩] none)
  simpa [lineItemsTotal] using h

/-- C8: A 4xx validation failure is surfaced immediately as
`PaymentRequestError` after a single provider call, without retry; a run of
retryable (network/5xx) failures is retried up to 3 times, so four
exhausting calls surface `PaymentProviderUnavailable`; the backoff delay
before retry k is 500ms·2^k plus jitter; and on exhaustion the Order Service
moves the `awaiting_payment` order to `failed` and releases its
reservation. -/
theorem gateway_retry_policy :
    (∀ rest : List ProviderResponse,
      createPaymentIntent (.badRequest4xx :: rest) maxRetries = (.requestError, 1)) ∧
    (∀ rs : List ProviderResponse, (∀ r ∈ rs, retryableResponse r = true) →
      rs.length = maxRetries + 1 →
      createPaymentIntent rs maxRetries = (.providerUnavailable, maxRetries + 1)) ∧
    (∀ attempt jitter, backoffDelayMs attempt jitter = 500 * 2 ^ attempt + jitter) ∧
    (∀ (o : Order) (l : Ledger), o.state = .awaiting_payment →
      (handleIntentExhaustion o l).1.state = .failed ∧
      ((handleIntentExhaustion o l).2.reservations.find? (fun p => p.1 == o.id)) =
        none) := by
  refine ⟨fun rest => rfl, ?_, fun attempt jitter => rfl, ?_⟩
  · intro rs hall hlen
    exact createPaymentIntent_exhausts maxRetries rs hall (by omega)
  · intro o l hst
    constructor
    · simp [handleIntentExhaustion, transitionOrKeep, TransitionState, hst, legalEdge]
    · exact release_clears_reservation l o.id

theorem gateway_retry_policy_witness :
    createPaymentIntent [.badRequest4xx] maxRetries = (.requestError, 1) ∧
      createPaymentIntent [.networkError, .server5xx, .networkError, .server5xx]
          maxRetries = (.providerUnavailable, 4) ∧
      backoffDelayMs 2 7 = 500 * 2 ^ 2 + 7 ∧
      ((handleIntentExhaustion ⟨1, .awaiting_payment, 0, none, [], 0⟩
            ⟨3, 0, [(1, 1)]⟩).1.state = .failed ∧
        ((handleIntentExhaustion ⟨1, .awaiting_payment, 0, none, [], 0⟩
              ⟨3, 0, [(1, 1)]⟩).2.reservations.find?
            (fun p => p.1 == (1 : Nat))) = none) :=
  ⟨gateway_retry_policy.1 [],
   gateway_retry_policy.2.1 _ (by decide) (by decide),
   gateway_retry_policy.2.2.1 2 7,
   gateway_retry_policy.2.2.2 ⟨1, .awaiting_payment, 0, none, [], 0⟩
     ⟨3, 0, [(1, 1)]⟩ rfl⟩

/-- C6 counterexample: in a concrete successful run of `handleCheckout` the
`POST /checkout` request carries `shipping_address` as its only body field
and `Authorization` as its only header — it carries neither a cart snapshot
nor a customer id in the body, and no `Idempotency-Key` header. -/
theorem checkout_request_shape_counterexample :
    (handleCheckout ⟨none, none, false, none, false, false⟩ "A" "a@b.c" "addr" "tok"
          100 ⟨.ok 1, .ok ⟨some "sec"⟩⟩).1 =
        [checkoutRequest "addr" "tok", paymentIntentRequest 1 100 "a@b.c" "A" "tok"] ∧
      (checkoutRequest "addr" "tok").bodyFields.map Prod.fst = ["shipping_address"] ∧
      "Idempotency-Key" ∉ (checkoutRequest "addr" "tok").headers.map Prod.fst := by
  refine ⟨by decide, rfl, ?_⟩
  decide

/-- C6 amended: every checkout-flow request carries only the `Authorization`
header; the `POST /checkout` body holds only the shipping address (no cart
snapshot, customer id or `Idempotency-Key`); and the spec-modelled backend
dedup returns the existing order unchanged when the idempotency key is
found within the dedup window. -/
theorem checkout_request_shape_amended :
    (∀ addr token,
      (checkoutRequest addr token).bodyFields = [("shipping_address", addr)] ∧
      (checkoutRequest addr token).headers = [("Authorization", token)]) ∧
    (∀ st name email addr token total env r,
      r ∈ (handleCheckout st name email addr token total env).1 →
      r = checkoutRequest addr token ∨
        ∃ oid, env.checkoutResp = .ok oid ∧
          r = paymentIntentRequest oid total email name token) ∧
    (∀ store key now fresh o, dedupLookup store key now = some o →
      createOrderWithDedup store key now fresh = (o, store)) := by
  refine ⟨fun addr token => ⟨rfl, rfl⟩, ?_, ?_⟩
  · intro st name email addr token total env r hr
    unfold handleCheckout at hr
    split at hr
    · simp at hr
    · cases henv : env.checkoutResp with
      | error msg =>
        rw [henv] at hr
        simp at hr
        exact .inl hr
      | ok oid =>
        rw [henv] at hr
        cases hpr : env.paymentResp with
        | error msg =>
          rw [hpr] at hr
          simp at hr
          rcases hr with h | h
          · exact .inl h
          · exact .inr ⟨oid, rfl, h⟩
        | ok resp =>
          rw [hpr] at hr
          dsimp only at hr
          by_cases hj : jsTruthy resp.client_secret = true
          · rw [if_pos hj] at hr
            simp at hr
            rcases hr with h | h
            · exact .inl h
            · exact .inr ⟨oid, rfl, h⟩
          · rw [if_neg hj] at hr
            simp at hr
            rcases hr with h | h
            · exact .inl h
            · exact .inr ⟨oid, rfl, h⟩
  · intro store key now fresh o h
    unfold createOrderWithDedup
    rw [h]

theorem checkout_request_shape_amended_witness :
    createOrderWithDedup [("k", 0, mkOrder 1 [] none)] "k" 300 (mkOrder 2 [] none) =
      (mkOrder 1 [] none, [("k", 0, mkOrder 1 [] none)]) :=
  checkout_request_shape_amended.2.2 _ "k" 300 _ _ (by decide)

/-- C7 counterexample: the `POST /payments/create-intent` request issued by
the client in a concrete run carries the body fields `order_id`, `amount`,
`customer_email` and `customer_name` — there is no `currency` field. -/
theorem payment_request_fields_counterexample :
    (handleCheckout ⟨none, none, false, none, false, false⟩ "A" "a@b.c" "addr" "tok"
          100 ⟨.ok 1, .ok ⟨some "sec"⟩⟩).1.getLast? =
        some (paymentIntentRequest 1 100 "a@b.c" "A" "tok") ∧
      (paymentIntentRequest 1 100 "a@b.c" "A" "tok").bodyFields.map Prod.fst =
        ["order_id", "amount", "customer_email", "customer_name"] ∧
      "currency" ∉ (paymentIntentRequest 1 100 "a@b.c" "A" "tok").bodyFields.map
        Prod.fst := by
  refine ⟨by decide, by decide, ?_⟩
  decide

/-- C7 amended: the create-intent request body consists of `order_id`,
`amount`, `customer_email` and `customer_name` (no `currency` field); the
spec-modelled success response carries both `client_secret` and `intent_id`;
and the checkout flow proceeds to payment only when the response carries a
truthy client secret, which is then stored. -/
theorem payment_request_fields_amended :
    (∀ oid amt email name tok,
      (paymentIntentRequest oid amt email name tok).bodyFields =
        [("order_id", toString oid), ("amount", toString amt),
         ("customer_email", email), ("customer_name", name)]) ∧
    (∀ (g : GatewayResult) (r : CreateIntentSuccess), intentResponseOf g = some r →
      g = .ok r.intent_id r.client_secret) ∧
    (∀ st name email addr token total env,
      st.showPaymentForm = false →
      (handleCheckout st name email addr token total env).2.showPaymentForm = true →
      ∃ resp, env.paymentResp = .ok resp ∧ jsTruthy resp.client_secret = true ∧
        (handleCheckout st name email addr token total env).2.clientSecret =
          resp.client_secret) := by
  refine ⟨fun oid amt email name tok => rfl, ?_, ?_⟩
  · intro g r h
    cases g with
    | ok iid cs =>
      simp only [intentResponseOf, Option.some.injEq] at h
      rw [← h]
    | requestError => simp [intentResponseOf] at h
    | providerUnavailable => simp [intentResponseOf] at h
  · intro st name email addr token total env hsp htrue
    by_cases hv : (jsTrim name == "" || jsTrim email == "" || jsTrim addr == "") = true
    · simp [handleCheckout, hv, hsp] at htrue
    · cases henv : env.checkoutResp with
      | error msg => simp [handleCheckout, hv, henv, hsp] at htrue
      | ok oid =>
        cases hpr : env.paymentResp with
        | error msg => simp [handleCheckout, hv, henv, hpr, hsp] at htrue
        | ok resp =>
          by_cases hj : jsTruthy resp.client_secret = true
          · exact ⟨resp, rfl, hj, by simp [handleCheckout, hv, henv, hpr, hj]⟩
          · simp [handleCheckout, hv, henv, hpr, hj, hsp] at htrue

theorem payment_request_fields_amended_witness :
    ∃ resp, (CheckoutEnv.mk (.ok 1) (.ok ⟨some "sec"⟩)).paymentResp = .ok resp ∧
      jsTruthy resp.client_secret = true ∧
      (handleCheckout ⟨none, none, false, none, false, false⟩ "A" "a@b.c" "addr"
          "tok" 100 ⟨.ok 1, .ok ⟨some "sec"⟩⟩).2.clientSecret = resp.client_secret :=
  payment_request_fields_amended.2.2 ⟨none, none, false, none, false, false⟩
    "A" "a@b.c" "addr" "tok" 100 ⟨.ok 1, .ok ⟨some "sec"⟩⟩ rfl (by decide)

/-- C9: If any of the customer name, email or shipping address is blank
after trimming, `handleCheckout` sets the fill-in-all-fields error and
issues no HTTP request, leaving `orderId` and `clientSecret` unchanged;
and the cart page renders the checkout flow only when the cart is
non-empty. -/
theorem checkout_validation_guards :
    (∀ st name email addr token total env,
      (jsTrim name == "" || jsTrim email == "" || jsTrim addr == "") = true →
      (handleCheckout st name email addr token total env).1 = [] ∧
      (handleCheckout st name email addr token total env).2.error =
        some "Please fill in all fields" ∧
      (handleCheckout st name email addr token total env).2.orderId = st.orderId ∧
      (handleCheckout st name email addr token total env).2.clientSecret =
        st.clientSecret) ∧
    (∀ items : List CartItem, cartPageRender items = .checkoutView → items ≠ []) := by
  constructor
  · intro st name email addr token total env hv
    simp [handleCheckout, hv]
  · intro items h hnil
    subst hnil
    simp [cartPageRender] at h

theorem checkout_validation_guards_witness :
    ((handleCheckout ⟨some 5, some "cs", false, none, false, false⟩ "  " "a@b.c"
          "addr" "tok" 100 ⟨.ok 1, .ok ⟨some "sec"⟩⟩).1 = [] ∧
      (handleCheckout ⟨some 5, some "cs", false, none, false, false⟩ "  " "a@b.c"
          "addr" "tok" 100 ⟨.ok 1, .ok ⟨some "sec"⟩⟩).2.error =
        some "Please fill in all fields" ∧
      (handleCheckout ⟨some 5, some "cs", false, none, false, false⟩ "  " "a@b.c"
          "addr" "tok" 100 ⟨.ok 1, .ok ⟨some "sec"⟩⟩).2.orderId = some 5 ∧
      (handleCheckout ⟨some 5, some "cs", false, none, false, false⟩ "  " "a@b.c"
          "addr" "tok" 100 ⟨.ok 1, .ok ⟨some "sec"⟩⟩).2.clientSecret = some "cs") ∧
    ([⟨1, 100, 1⟩] : List CartItem) ≠ [] :=
  ⟨checkout_validation_guards.1 ⟨some 5, some "cs", false, none, false, false⟩
      "  " "a@b.c" "addr" "tok" 100 ⟨.ok 1, .ok ⟨some "sec"⟩⟩ (by decide),
   checkout_validation_guards.2 [⟨1, 100, 1⟩] rfl⟩

/-- C10: In the Stripe submit handler, `onSuccess` fires exactly when the
Stripe objects are loaded and confirmation yields a payment intent with
status `succeeded`; every other loaded outcome calls `onError` with a
message and not `onSuccess`; and when the Stripe objects are not loaded no
confirmation is attempted and neither callback fires. -/
theorem stripe_submit_callbacks (sr er : Bool) (oc : ConfirmOutcome) :
    ((sr = false ∨ er = false) →
      handleSubmit sr er oc =
        { confirmAttempted := false, onSuccessArg := none, onErrorArg := none,
          errorMessage :=
            some "Payment system not ready. Please refresh the page." }) ∧
    (sr = true → er = true →
      (((handleSubmit sr er oc).onSuccessArg).isSome = true ↔
        ∃ id, oc = .intent "succeeded" id)) ∧
    (sr = true → er = true → (∀ id, oc ≠ .intent "succeeded" id) →
      (∃ m, (handleSubmit sr er oc).onErrorArg = some m) ∧
        (handleSubmit sr er oc).onSuccessArg = none) ∧
    (∀ id, oc = .intent "succeeded" id → sr = true → er = true →
      (handleSubmit sr er oc).onSuccessArg = some id ∧
        (handleSubmit sr er oc).onErrorArg = none) := by
  refine ⟨?_, ?_, ?_, ?_⟩
  · rintro (rfl | rfl)
    · simp [handleSubmit]
    · cases sr <;> simp [handleSubmit]
  · rintro rfl rfl
    cases oc with
    | confirmError msg => simp [handleSubmit]
    | intent status id =>
      by_cases hs : status = "succeeded"
      · subst hs
        refine ⟨fun _ => ⟨id, rfl⟩, fun _ => ?_⟩
        simp [handleSubmit]
      · simp [handleSubmit, hs]
    | thrown msg => simp [handleSubmit]
  · rintro rfl rfl hne
    cases oc with
    | confirmError msg => simp [handleSubmit]
    | intent status id =>
      by_cases hs : status = "succeeded"
      · subst hs
        exact absurd rfl (hne id)
      · simp [handleSubmit, hs]
    | thrown msg => simp [handleSubmit]
  · rintro id rfl rfl rfl
    simp [handleSubmit]

theorem stripe_submit_callbacks_witness :
    (handleSubmit true true (.intent "succeeded" "pi_9")).onSuccessArg =
        some "pi_9" ∧
      (handleSubmit true true (.intent "succeeded" "pi_9")).onErrorArg = none :=
  (stripe_submit_callbacks true true _).2.2.2 "pi_9" rfl rfl rfl

end Shop
